import Mathlib

/-!
Shallow embedding of the relisten-realm-migrator `/migrate` route (src/index.js)
and the spec-level properties stated about it.

Modelling conventions:
* Identifier strings are Lean `String`s; JavaScript `.toLowerCase()` is the
  ASCII case fold `toLowerCase` below (identifiers are UUID-shaped).
* JavaScript `Array.prototype.sort()` on strings (lexicographic by code unit)
  is `List.insertionSort (· ≤ ·)` over `String` (extensionally: a stable sort
  by the lexicographic order; the orders agree on the ASCII identifiers).
* A JavaScript object used as a dictionary (`aggregateBy`'s result, keyed by
  UUID strings) is an association list `List (String × _)` whose keys appear
  in first-insertion order, exactly as `Object.entries` enumerates them.
* Realm `Date` values are opaque timestamps, modelled by `Int`.
* The Realm store handle is modelled by `Store`: each table that the route
  reads is an `Option (List _)` — `none` means `realm.objects(name)` throws
  (e.g. the table is absent after the schemaless fallback open).  The two
  declared-but-never-read tables (`RecentlyPlayedTrack`, `OfflineSource`) are
  carried as plain lists.  `schemaVersionReadOk` marks whether the one
  fallible step between a successful open and the `realm.close()` call that
  is outside the inner `try` (the `realm.schemaVersion` read) succeeds; its
  failure is the route's `Unexpected` (HTTP 500) path after a successful open.
* The two `new Realm` attempts are oracles in `OpenEnv`: `full` is the result
  of the open against the full declared schema, `fallback` the result of the
  schemaless retry (`none` = the constructor throws).
* `migrate` returns, besides the HTTP response, the number of times
  `realm.close()` was executed and whether the temporary input file was
  removed, so that the resource-discipline properties are statable.
-/

namespace RealmMigrator

/-- Models JavaScript `String.prototype.toLowerCase` on one character: the
ASCII uppercase range U+0041..U+005A is shifted down by 32, everything else is
left unchanged (the identifiers handled by the route are UUID-shaped). -/
def lowerChar (c : Char) : Char :=
  if 65 ≤ c.toNat ∧ c.toNat ≤ 90 then Char.ofNat (c.toNat + 32) else c

/-- Models `s.toLowerCase()` : `lowerChar` applied to every character. -/
def toLowerCase (s : String) : String :=
  ⟨s.data.map lowerChar⟩

/-- Lexicographic code-unit comparison of character lists, the order by which
JavaScript's default `Array.prototype.sort()` compares strings: `true` iff the
first list is less than or equal to the second. -/
def jsLeChars : List Char → List Char → Bool
  | [], _ => true
  | _ :: _, [] => false
  | a :: as, b :: bs =>
      if a = b then jsLeChars as bs
      else decide (a.toNat < b.toNat)

/-- The string order used by JavaScript's default `Array.prototype.sort()`:
lexicographic comparison by code unit (on the UUID-shaped identifiers this
agrees with comparison by code point). -/
def jsLe (a b : String) : Bool :=
  jsLeChars a.data b.data

/-- Models JavaScript `Array.prototype.sort()` on an array of strings:
extensionally, a stable sort ascending by the lexicographic order `jsLe`. -/
def sortStrings (l : List String) : List String :=
  List.insertionSort (fun a b => jsLe a b = true) l

/-- The `state` enumeration of `OfflineTrack` records (`OfflineTrackState` in
src/index.js). -/
def OfflineTrackState.UNKNOWN : Int := 0

def OfflineTrackState.DOWNLOAD_QUEUED : Int := 1

def OfflineTrackState.DOWNLOADING : Int := 2

def OfflineTrackState.DOWNLOADED : Int := 3

def OfflineTrackState.DELETING : Int := 4

/-- A `FavoritedArtist` record (`FavoritedArtistSchema`). -/
structure FavoritedArtistRec where
  uuid : String
  created_at : Int
deriving DecidableEq

/-- A `FavoritedShow` record (`FavoritedShowSchema`). -/
structure FavoritedShowRec where
  uuid : String
  created_at : Int
  show_date : Int
  artist_uuid : String
deriving DecidableEq

/-- A `FavoritedSource` record (`FavoritedSourceSchema`). -/
structure FavoritedSourceRec where
  uuid : String
  created_at : Int
  artist_uuid : String
  show_uuid : String
  show_date : Int
deriving DecidableEq

/-- A `FavoritedTrack` record (`FavoritedTrackSchema`). -/
structure FavoritedTrackRec where
  uuid : String
  created_at : Int
  artist_uuid : String
  show_uuid : String
  source_uuid : String
deriving DecidableEq

/-- A `RecentlyPlayedTrack` record (`RecentlyPlayedTrackSchema`); declared in
the full open schema but never read by the route. -/
structure RecentlyPlayedTrackRec where
  uuid : String
  created_at : Int
  artist_uuid : String
  show_uuid : String
  source_uuid : String
  track_uuid : String
  updated_at : Int
  past_halfway : Bool
deriving DecidableEq

/-- An `OfflineTrack` record (`OfflineTrackSchema`); `file_size` is the
optional `int?` field. -/
structure OfflineTrackRec where
  track_uuid : String
  artist_uuid : String
  show_uuid : String
  source_uuid : String
  created_at : Int
  state : Int
  file_size : Option Int
deriving DecidableEq

/-- An `OfflineSource` record (`OfflineSourceSchema`); declared in the full
open schema but never read by the route. -/
structure OfflineSourceRec where
  source_uuid : String
  artist_uuid : String
  show_uuid : String
  year_uuid : String
  created_at : Int
deriving DecidableEq

/-- The table names of the full declared schema, in the order they are listed
in the `new Realm` call of src/index.js. -/
def fullSchemaNames : List String :=
  ["FavoritedArtist", "FavoritedShow", "FavoritedSource", "FavoritedTrack",
   "RecentlyPlayedTrack", "OfflineTrack", "OfflineSource"]

/-- A successfully opened Realm store handle.  A table field of `none` means
`realm.objects(name)` throws for that table (absent under the schemaless
fallback); `schemaVersionReadOk = false` means the `realm.schemaVersion` read
throws (the route's only fallible step between a successful open and the
`realm.close()` call that the inner extraction `try` does not guard). -/
structure Store where
  favoritedArtist : Option (List FavoritedArtistRec)
  favoritedShow : Option (List FavoritedShowRec)
  favoritedSource : Option (List FavoritedSourceRec)
  favoritedTrack : Option (List FavoritedTrackRec)
  recentlyPlayedTrack : List RecentlyPlayedTrackRec
  offlineTrack : Option (List OfflineTrackRec)
  offlineSource : List OfflineSourceRec
  schemaVersion : Int
  schemaVersionReadOk : Bool
deriving DecidableEq

/-- Outcome oracle for the two `new Realm` open attempts on the uploaded
file: `full` for the attempt against the full declared schema, `fallback`
for the schemaless retry; `none` means the constructor throws. -/
structure OpenEnv where
  full : Option Store
  fallback : Option Store
deriving DecidableEq

/-- The nested `try { new Realm ... } catch { try { new Realm ... } ... }`
open logic: use the full-schema open if it succeeds, otherwise the
schemaless fallback. -/
def openStore (env : OpenEnv) : Option Store :=
  match env.full with
  | some s => some s
  | none => env.fallback

/-- One entry of the `sources` output array, as built at lines 182-188 of
src/index.js. -/
structure SourceOut where
  uuid : String
  created_at : Int
  artist_uuid : String
  show_uuid : String
  show_date : Int
deriving DecidableEq

/-- The `legacyData` object assembled by the route. `offlineTracksBySource`
is the JavaScript object in `Object.entries` (first-insertion) key order. -/
structure LegacyData where
  trackUuids : List String
  showUuids : List String
  sources : List SourceOut
  artistUuids : List String
  offlineTracksBySource : List (String × List OfflineTrackRec)
  schemaVersion : Int
deriving DecidableEq

/-- One step of `aggregateBy`'s loop body: if the key is present append the
item to its list, otherwise add a fresh singleton entry at the end
(JavaScript object keys enumerate in first-insertion order). -/
def addItem {α : Type} (result : List (String × List α)) (key : String) (item : α) :
    List (String × List α) :=
  match result with
  | [] => [(key, [item])]
  | (k, l) :: rest =>
      if k = key then (k, l ++ [item]) :: rest
      else (k, l) :: addItem rest key item

/-- The `aggregateBy(items, keySelector)` helper of src/index.js. -/
def aggregateBy {α : Type} (items : List α) (keySelector : α → String) :
    List (String × List α) :=
  items.foldl (fun result item => addItem result (keySelector item) item) []

/-- The `legacyData` object as initialised at lines 161-168 of src/index.js,
before the extraction block runs. -/
def initLegacyData (schemaVersion : Int) : LegacyData :=
  { trackUuids := []
    showUuids := []
    sources := []
    artistUuids := []
    offlineTracksBySource := []
    schemaVersion := schemaVersion }

/-- The guarded extraction block (lines 170-211 of src/index.js): the five
reads run sequentially inside one `try`; the first read that throws aborts
the rest of the block, keeping the assignments already made, and the `catch`
only logs.  Reading order: FavoritedTrack, FavoritedShow, FavoritedSource,
FavoritedArtist, OfflineTrack. -/
def extract (s : Store) (d : LegacyData) : LegacyData :=
  match s.favoritedTrack with
  | none => d
  | some favoriteTracks =>
    let d := { d with
      trackUuids := sortStrings (favoriteTracks.map (fun o => toLowerCase o.uuid)) }
    match s.favoritedShow with
    | none => d
    | some favoriteShows =>
      let d := { d with
        showUuids := sortStrings (favoriteShows.map (fun o => toLowerCase o.uuid)) }
      match s.favoritedSource with
      | none => d
      | some favoriteSources =>
        let d := { d with
          sources := favoriteSources.map (fun o =>
            { uuid := toLowerCase o.uuid
              created_at := o.created_at
              artist_uuid := toLowerCase o.artist_uuid
              show_uuid := toLowerCase o.show_uuid
              show_date := o.show_date }) }
        match s.favoritedArtist with
        | none => d
        | some favoriteArtists =>
          let d := { d with
            artistUuids := sortStrings (favoriteArtists.map (fun o => toLowerCase o.uuid)) }
          match s.offlineTrack with
          | none => d
          | some offlineTracks =>
            let downloadedTracks :=
              (offlineTracks.filter (fun o => o.state == OfflineTrackState.DOWNLOADED)).map
                (fun o =>
                  ({ track_uuid := toLowerCase o.track_uuid
                     artist_uuid := toLowerCase o.artist_uuid
                     show_uuid := toLowerCase o.show_uuid
                     source_uuid := toLowerCase o.source_uuid
                     created_at := o.created_at
                     state := o.state
                     file_size := o.file_size } : OfflineTrackRec))
            { d with
              offlineTracksBySource := aggregateBy downloadedTracks (fun t => t.source_uuid) }

/-- The `isEmpty` flag computed in the success response (lines 218-224 of
src/index.js): the negation of "some collection is non-empty";
`Object.entries(m).length` is the number of keys of `m`. -/
def isEmptyCalc (d : LegacyData) : Bool :=
  !(decide (d.trackUuids.length > 0) ||
    decide (d.showUuids.length > 0) ||
    decide (d.sources.length > 0) ||
    decide (d.artistUuids.length > 0) ||
    decide (d.offlineTracksBySource.length > 0))

/-- The four response shapes the route can produce. -/
inductive Response where
  | missingFile : Response
  | unreadable : Response
  | success : LegacyData → Bool → Response
  | failure : Response
deriving DecidableEq

/-- The HTTP status code of each response. -/
def Response.status : Response → Nat
  | .missingFile => 400
  | .unreadable => 400
  | .success _ _ => 200
  | .failure => 500

/-- The `error` string of each response (`none` on success). -/
def Response.errorMessage : Response → Option String
  | .missingFile => some "Database file is required"
  | .unreadable => some "Unable to read database or unsupported version"
  | .success _ _ => none
  | .failure => some "Database parsing failed"

/-- The `data` payload of a success response. -/
def Response.data : Response → Option LegacyData
  | .success d _ => some d
  | _ => none

/-- The `isEmpty` flag of a success response. -/
def Response.isEmpty : Response → Option Bool
  | .success _ e => some e
  | _ => none

/-- What one invocation of the route produced: the HTTP response, how many
times `realm.close()` ran, and whether the temporary input file was removed
by the `finally` block. -/
structure HandlerResult where
  response : Response
  closeCalls : Nat
  tempRemoved : Bool
deriving DecidableEq

/-- The `POST /migrate` handler (lines 115-243 of src/index.js) over the open
oracle.  `req = none` models a form without a `database` file.  After a
successful open, the `realm.schemaVersion` read is the fallible step outside
the inner `try`; when it throws, control reaches the outer `catch` (HTTP 500)
without ever executing the `realm.close()` at line 213, and only the
`finally` block (temp-file removal) runs. -/
def migrate (req : Option OpenEnv) : HandlerResult :=
  match req with
  | none =>
      { response := .missingFile, closeCalls := 0, tempRemoved := false }
  | some env =>
    match openStore env with
    | none =>
        { response := .unreadable, closeCalls := 0, tempRemoved := true }
    | some realm =>
      if realm.schemaVersionReadOk then
        let legacyData := extract realm (initLegacyData realm.schemaVersion)
        { response := .success legacyData (isEmptyCalc legacyData)
          closeCalls := 1
          tempRemoved := true }
      else
        { response := .failure, closeCalls := 0, tempRemoved := true }

/-! Facts about the case fold. -/

/-- The round trip `Nat → Char → Nat` is the identity on valid code points. -/
theorem toNat_ofNat_of_valid {n : Nat} (h : Nat.isValidChar n) :
    (Char.ofNat n).toNat = n := by
  unfold Char.ofNat
  rw [dif_pos h]
  rfl

/-- The character case fold is idempotent. -/
theorem lowerChar_idem (c : Char) : lowerChar (lowerChar c) = lowerChar c := by
  unfold lowerChar
  by_cases h : 65 ≤ c.toNat ∧ c.toNat ≤ 90
  · rw [if_pos h]
    have hv : Nat.isValidChar (c.toNat + 32) := Or.inl (by omega)
    rw [toNat_ofNat_of_valid hv, if_neg (by omega)]
  · rw [if_neg h, if_neg h]

/-- The string case fold is idempotent. -/
theorem toLowerCase_idem (s : String) :
    toLowerCase (toLowerCase s) = toLowerCase s := by
  unfold toLowerCase
  apply congrArg String.mk
  rw [List.map_map]
  exact List.map_congr_left (fun c _ => lowerChar_idem c)

/-! Facts about the sort order. -/

/-- Characters with equal code points are equal. -/
theorem char_eq_of_toNat_eq {a b : Char} (h : a.toNat = b.toNat) : a = b :=
  Char.eq_of_val_eq (UInt32.eq_of_toBitVec_eq (BitVec.eq_of_toNat_eq h))

/-- The code-unit comparison is total. -/
theorem jsLeChars_total : ∀ as bs : List Char,
    jsLeChars as bs = true ∨ jsLeChars bs as = true
  | [], _ => Or.inl rfl
  | _ :: _, [] => Or.inr rfl
  | a :: as, b :: bs => by
    by_cases hab : a = b
    · subst hab
      simpa [jsLeChars] using jsLeChars_total as bs
    · have hne : a.toNat ≠ b.toNat := fun h => hab (char_eq_of_toNat_eq h)
      rcases Nat.lt_or_ge a.toNat b.toNat with h | h
      · exact Or.inl (by simp [jsLeChars, hab, h])
      · exact Or.inr (by simp [jsLeChars, Ne.symm hab]; omega)

/-- The code-unit comparison is transitive. -/
theorem jsLeChars_trans : ∀ as bs cs : List Char,
    jsLeChars as bs = true → jsLeChars bs cs = true → jsLeChars as cs = true
  | [], _, _ => fun _ _ => rfl
  | _ :: _, [], _ => fun h _ => by simp [jsLeChars] at h
  | _ :: _, _ :: _, [] => fun _ h => by simp [jsLeChars] at h
  | a :: as, b :: bs, c :: cs => fun h1 h2 => by
    by_cases hab : a = b
    · subst hab
      simp only [jsLeChars, if_pos rfl] at h1
      by_cases hbc : a = c
      · subst hbc
        simp only [jsLeChars, if_pos rfl] at h2 ⊢
        exact jsLeChars_trans as bs cs h1 h2
      · simpa [jsLeChars, hbc] using (by simpa [jsLeChars, hbc] using h2)
    · simp only [jsLeChars, if_neg hab, decide_eq_true_eq] at h1
      by_cases hbc : b = c
      · subst hbc
        simpa [jsLeChars, hab] using h1
      · simp only [jsLeChars, if_neg hbc, decide_eq_true_eq] at h2
        have hac : a ≠ c := fun h => by subst h; omega
        simp only [jsLeChars, if_neg hac, decide_eq_true_eq]
        omega

instance : IsTotal String (fun a b => jsLe a b = true) :=
  ⟨fun a b => jsLeChars_total a.data b.data⟩

instance : IsTrans String (fun a b => jsLe a b = true) :=
  ⟨fun a b c => jsLeChars_trans a.data b.data c.data⟩

/-- The output of `sortStrings` is sorted ascending by the JavaScript string
order. -/
theorem sortStrings_sorted (l : List String) :
    (sortStrings l).Sorted (fun a b => jsLe a b = true) :=
  List.sorted_insertionSort _ l

/-- The output of `sortStrings` is a permutation of its input. -/
theorem sortStrings_perm (l : List String) : List.Perm (sortStrings l) l :=
  List.perm_insertionSort _ l

/-- Membership is invariant under `sortStrings`. -/
theorem mem_sortStrings {l : List String} {u : String} :
    u ∈ sortStrings l ↔ u ∈ l :=
  (sortStrings_perm l).mem_iff

/-- Duplicate-freedom is invariant under `sortStrings`. -/
theorem sortStrings_nodup {l : List String} (h : l.Nodup) :
    (sortStrings l).Nodup :=
  ((sortStrings_perm l).nodup_iff).mpr h

/-! Facts about `aggregateBy`. -/

/-- Unfolding `aggregateBy` over the last item of the input. -/
theorem aggregateBy_concat {α : Type} (items : List α) (x : α) (key : α → String) :
    aggregateBy (items ++ [x]) key = addItem (aggregateBy items key) (key x) x := by
  simp [aggregateBy, List.foldl_append]

/-- Keys of `addItem`: unchanged when the key is already present, appended
at the end otherwise. -/
theorem addItem_keys {α : Type} (m : List (String × List α)) (k : String) (x : α) :
    (addItem m k x).map Prod.fst =
      if k ∈ m.map Prod.fst then m.map Prod.fst else m.map Prod.fst ++ [k] := by
  induction m with
  | nil => simp [addItem]
  | cons q rest ih =>
    obtain ⟨k', l⟩ := q
    by_cases hk : k' = k
    · subst hk
      simp [addItem]
    · by_cases hmem : k ∈ rest.map Prod.fst
      · simp [addItem, hk, ih, hmem, Ne.symm hk]
      · simp [addItem, hk, ih, hmem, Ne.symm hk]

/-- `addItem` keeps the key list duplicate-free. -/
theorem addItem_keys_nodup {α : Type} (m : List (String × List α)) (k : String) (x : α)
    (h : (m.map Prod.fst).Nodup) : ((addItem m k x).map Prod.fst).Nodup := by
  rw [addItem_keys]
  by_cases hmem : k ∈ m.map Prod.fst
  · simpa [hmem]
  · rw [if_neg hmem]
    exact h.append (List.nodup_singleton k)
      (List.disjoint_singleton.mpr hmem)

/-- The key just added is present afterwards. -/
theorem mem_addItem_keys_self {α : Type} (m : List (String × List α)) (k : String) (x : α) :
    k ∈ (addItem m k x).map Prod.fst := by
  rw [addItem_keys]
  by_cases hmem : k ∈ m.map Prod.fst <;> simp [hmem]

/-- Existing keys survive `addItem`. -/
theorem keys_subset_addItem {α : Type} (m : List (String × List α)) (k : String) (x : α) :
    m.map Prod.fst ⊆ (addItem m k x).map Prod.fst := by
  rw [addItem_keys]
  by_cases hmem : k ∈ m.map Prod.fst
  · simp [hmem]
  · rw [if_neg hmem]
    exact List.subset_append_left _ _

/-- Entry contents after `addItem`, described against an abstract
per-key description `F` of the entries of `m`. -/
theorem addItem_entries {α : Type} (m : List (String × List α)) (k₀ : String) (x : α)
    (F : String → List α)
    (hnd : (m.map Prod.fst).Nodup)
    (hF : ∀ p ∈ m, p.2 = F p.1)
    (habs : k₀ ∉ m.map Prod.fst → F k₀ = []) :
    ∀ p ∈ addItem m k₀ x, p.2 = if p.1 = k₀ then F p.1 ++ [x] else F p.1 := by
  induction m with
  | nil =>
    intro p hp
    simp only [addItem, List.mem_singleton] at hp
    subst hp
    simp [habs (by simp)]
  | cons q rest ih =>
    obtain ⟨k', l⟩ := q
    intro p hp
    by_cases hk : k' = k₀
    · subst hk
      simp only [addItem, eq_self_iff_true, if_true, List.mem_cons] at hp
      rcases hp with hp | hp
      · subst hp
        simp only [if_true]
        exact congrArg (fun t => t ++ [x]) (hF (k', l) (List.mem_cons_self _ _))
      · have hp1 : p.1 ≠ k' := by
          intro h
          have hmem : p.1 ∈ rest.map Prod.fst := List.mem_map_of_mem Prod.fst hp
          rw [h] at hmem
          simp only [List.map_cons, List.nodup_cons] at hnd
          exact hnd.1 hmem
        rw [if_neg hp1]
        exact hF p (List.mem_cons_of_mem _ hp)
    · simp only [addItem, if_neg hk, List.mem_cons] at hp
      rcases hp with hp | hp
      · subst hp
        rw [if_neg hk]
        exact hF (k', l) (List.mem_cons_self _ _)
      · simp only [List.map_cons, List.nodup_cons] at hnd
        exact ih hnd.2 (fun q hq => hF q (List.mem_cons_of_mem _ hq))
          (fun hout => habs (by simp [hout, Ne.symm hk])) p hp

/-- `addItem` never creates an empty entry. -/
theorem addItem_ne_nil {α : Type} (m : List (String × List α)) (k : String) (x : α)
    (h : ∀ p ∈ m, p.2 ≠ []) : ∀ p ∈ addItem m k x, p.2 ≠ [] := by
  induction m with
  | nil =>
    intro p hp
    simp only [addItem, List.mem_singleton] at hp
    subst hp
    simp
  | cons q rest ih =>
    obtain ⟨k', l⟩ := q
    intro p hp
    by_cases hk : k' = k
    · subst hk
      simp only [addItem, eq_self_iff_true, if_true, List.mem_cons] at hp
      rcases hp with hp | hp
      · subst hp
        simp
      · exact h p (List.mem_cons_of_mem _ hp)
    · simp only [addItem, if_neg hk, List.mem_cons] at hp
      rcases hp with hp | hp
      · subst hp
        exact h (k', l) (List.mem_cons_self _ _)
      · exact ih (fun q hq => h q (List.mem_cons_of_mem _ hq)) p hp

/-- The concatenation of the value lists after `addItem` is, up to
permutation, the old concatenation with the new item at the end. -/
theorem addItem_join_perm {α : Type} (m : List (String × List α)) (k : String) (x : α) :
    List.Perm ((addItem m k x).map Prod.snd).flatten ((m.map Prod.snd).flatten ++ [x]) := by
  induction m with
  | nil => simp [addItem]
  | cons q rest ih =>
    obtain ⟨k', l⟩ := q
    by_cases hk : k' = k
    · subst hk
      simp only [addItem, eq_self_iff_true, if_true, List.map_cons,
        List.flatten_cons, List.append_assoc]
      exact List.Perm.append_left l List.perm_append_comm
    · simp only [addItem, if_neg hk, List.map_cons, List.flatten_cons]
      have h1 : List.Perm (l ++ ((addItem rest k x).map Prod.snd).flatten)
          (l ++ ((rest.map Prod.snd).flatten ++ [x])) := ih.append_left l
      rw [← List.append_assoc] at h1
      exact h1

/-- Global invariant of `aggregateBy`: duplicate-free keys, each entry is the
ordered sublist of the input with that key, entries are non-empty, every
input key appears, and the value lists jointly enumerate the input. -/
theorem aggregateBy_spec {α : Type} (items : List α) (key : α → String) :
    ((aggregateBy items key).map Prod.fst).Nodup ∧
    (∀ p ∈ aggregateBy items key,
        p.2 = items.filter (fun i => key i == p.1) ∧ p.2 ≠ []) ∧
    (∀ i ∈ items, key i ∈ (aggregateBy items key).map Prod.fst) ∧
    List.Perm ((aggregateBy items key).map Prod.snd).flatten items := by
  induction items using List.reverseRecOn with
  | nil => simp [aggregateBy]
  | append_singleton l x ih =>
    obtain ⟨hnd, hent, hcomp, hperm⟩ := ih
    rw [aggregateBy_concat]
    refine ⟨addItem_keys_nodup _ _ _ hnd, ?_, ?_, ?_⟩
    · intro p hp
      constructor
      · have hdesc := addItem_entries (aggregateBy l key) (key x) x
          (fun k => l.filter (fun i => key i == k)) hnd
          (fun q hq => (hent q hq).1)
          (fun habs => by
            rw [List.filter_eq_nil_iff]
            intro i hi hki
            exact habs (by
              have : key i = key x := by simpa using hki
              exact this ▸ hcomp i hi))
          p hp
        rw [hdesc, List.filter_append]
        by_cases hpk : p.1 = key x
        · rw [if_pos hpk]
          simp [hpk]
        · rw [if_neg hpk]
          have : ¬(key x == p.1) = true := by simpa using fun h => hpk h.symm
          simp [List.filter, this]
      · exact addItem_ne_nil _ _ _ (fun q hq => (hent q hq).2) p hp
    · intro i hi
      rcases List.mem_append.mp hi with hi | hi
      · exact keys_subset_addItem _ _ _ (hcomp i hi)
      · rw [List.mem_singleton.mp hi]
        exact mem_addItem_keys_self _ _ _
    · exact (addItem_join_perm _ _ _).trans (hperm.append_right [x])

/-! Characterization of the extraction block. -/

/-- The `downloadedTracks` intermediate of lines 196-206 of src/index.js:
offline tracks with `state === DOWNLOADED`, identifier fields lowercased,
`created_at`, `state` and `file_size` passed through. -/
def downloadedTracks (offlineTracks : List OfflineTrackRec) : List OfflineTrackRec :=
  (offlineTracks.filter (fun o => o.state == OfflineTrackState.DOWNLOADED)).map
    (fun o =>
      ({ track_uuid := toLowerCase o.track_uuid
         artist_uuid := toLowerCase o.artist_uuid
         show_uuid := toLowerCase o.show_uuid
         source_uuid := toLowerCase o.source_uuid
         created_at := o.created_at
         state := o.state
         file_size := o.file_size } : OfflineTrackRec))

/-- The normalized `sources` output of lines 182-188 of src/index.js. -/
def normalizedSources (favoriteSources : List FavoritedSourceRec) : List SourceOut :=
  favoriteSources.map (fun o =>
    { uuid := toLowerCase o.uuid
      created_at := o.created_at
      artist_uuid := toLowerCase o.artist_uuid
      show_uuid := toLowerCase o.show_uuid
      show_date := o.show_date })

/-- Shape of `extract` when the `FavoritedTrack` read throws: nothing is
assigned at all. -/
theorem extract_fail_track (s : Store) (d : LegacyData)
    (h : s.favoritedTrack = none) : extract s d = d := by
  unfold extract
  rw [h]

/-- Shape of `extract` when `FavoritedTrack` reads but `FavoritedShow`
throws: only `trackUuids` is assigned. -/
theorem extract_fail_show (s : Store) (d : LegacyData) (ts : List FavoritedTrackRec)
    (hta : s.favoritedTrack = some ts) (hsh : s.favoritedShow = none) :
    extract s d =
      { d with trackUuids := sortStrings (ts.map (fun o => toLowerCase o.uuid)) } := by
  unfold extract
  rw [hta, hsh]

/-- Shape of `extract` when the `FavoritedSource` read throws: `trackUuids`
and `showUuids` are assigned, nothing later. -/
theorem extract_fail_source (s : Store) (d : LegacyData)
    (ts : List FavoritedTrackRec) (ss : List FavoritedShowRec)
    (hta : s.favoritedTrack = some ts) (hsh : s.favoritedShow = some ss)
    (hso : s.favoritedSource = none) :
    extract s d =
      { d with trackUuids := sortStrings (ts.map (fun o => toLowerCase o.uuid))
               showUuids := sortStrings (ss.map (fun o => toLowerCase o.uuid)) } := by
  unfold extract
  rw [hta, hsh, hso]

/-- Shape of `extract` when the `FavoritedArtist` read throws: favorites up
to `sources` are assigned, `artistUuids` and the aggregate are not. -/
theorem extract_fail_artist (s : Store) (d : LegacyData)
    (ts : List FavoritedTrackRec) (ss : List FavoritedShowRec)
    (srcs : List FavoritedSourceRec)
    (hta : s.favoritedTrack = some ts) (hsh : s.favoritedShow = some ss)
    (hso : s.favoritedSource = some srcs) (har : s.favoritedArtist = none) :
    extract s d =
      { d with trackUuids := sortStrings (ts.map (fun o => toLowerCase o.uuid))
               showUuids := sortStrings (ss.map (fun o => toLowerCase o.uuid))
               sources := normalizedSources srcs } := by
  unfold extract
  rw [hta, hsh, hso, har]
  rfl

/-- Shape of `extract` when the `OfflineTrack` read throws: all four
favorites collections are assigned, the aggregate stays empty. -/
theorem extract_fail_offline (s : Store) (d : LegacyData)
    (ts : List FavoritedTrackRec) (ss : List FavoritedShowRec)
    (srcs : List FavoritedSourceRec) (ars : List FavoritedArtistRec)
    (hta : s.favoritedTrack = some ts) (hsh : s.favoritedShow = some ss)
    (hso : s.favoritedSource = some srcs) (har : s.favoritedArtist = some ars)
    (hot : s.offlineTrack = none) :
    extract s d =
      { d with trackUuids := sortStrings (ts.map (fun o => toLowerCase o.uuid))
               showUuids := sortStrings (ss.map (fun o => toLowerCase o.uuid))
               sources := normalizedSources srcs
               artistUuids := sortStrings (ars.map (fun o => toLowerCase o.uuid)) } := by
  unfold extract
  rw [hta, hsh, hso, har, hot]
  rfl

/-- Shape of `extract` when all five reads succeed. -/
theorem extract_all_some (s : Store) (d : LegacyData)
    (ts : List FavoritedTrackRec) (ss : List FavoritedShowRec)
    (srcs : List FavoritedSourceRec) (ars : List FavoritedArtistRec)
    (ots : List OfflineTrackRec)
    (hta : s.favoritedTrack = some ts) (hsh : s.favoritedShow = some ss)
    (hso : s.favoritedSource = some srcs) (har : s.favoritedArtist = some ars)
    (hot : s.offlineTrack = some ots) :
    extract s d =
      { d with trackUuids := sortStrings (ts.map (fun o => toLowerCase o.uuid))
               showUuids := sortStrings (ss.map (fun o => toLowerCase o.uuid))
               sources := normalizedSources srcs
               artistUuids := sortStrings (ars.map (fun o => toLowerCase o.uuid))
               offlineTracksBySource :=
                 aggregateBy (downloadedTracks ots) (fun t => t.source_uuid) } := by
  unfold extract
  rw [hta, hsh, hso, har, hot]
  rfl

/-- Exhaustive shape analysis of the extraction block over the initial
`legacyData`: exactly one of six shapes occurs, determined by the first
table read that throws. -/
theorem extract_cases (s : Store) (v : Int) :
    (s.favoritedTrack = none ∧ extract s (initLegacyData v) = initLegacyData v) ∨
    (∃ ts, s.favoritedTrack = some ts ∧ s.favoritedShow = none ∧
      extract s (initLegacyData v) = { initLegacyData v with
        trackUuids := sortStrings (ts.map (fun o => toLowerCase o.uuid)) }) ∨
    (∃ ts ss, s.favoritedTrack = some ts ∧ s.favoritedShow = some ss ∧
      s.favoritedSource = none ∧
      extract s (initLegacyData v) = { initLegacyData v with
        trackUuids := sortStrings (ts.map (fun o => toLowerCase o.uuid))
        showUuids := sortStrings (ss.map (fun o => toLowerCase o.uuid)) }) ∨
    (∃ ts ss srcs, s.favoritedTrack = some ts ∧ s.favoritedShow = some ss ∧
      s.favoritedSource = some srcs ∧ s.favoritedArtist = none ∧
      extract s (initLegacyData v) = { initLegacyData v with
        trackUuids := sortStrings (ts.map (fun o => toLowerCase o.uuid))
        showUuids := sortStrings (ss.map (fun o => toLowerCase o.uuid))
        sources := normalizedSources srcs }) ∨
    (∃ ts ss srcs ars, s.favoritedTrack = some ts ∧ s.favoritedShow = some ss ∧
      s.favoritedSource = some srcs ∧ s.favoritedArtist = some ars ∧
      s.offlineTrack = none ∧
      extract s (initLegacyData v) = { initLegacyData v with
        trackUuids := sortStrings (ts.map (fun o => toLowerCase o.uuid))
        showUuids := sortStrings (ss.map (fun o => toLowerCase o.uuid))
        sources := normalizedSources srcs
        artistUuids := sortStrings (ars.map (fun o => toLowerCase o.uuid)) }) ∨
    (∃ ts ss srcs ars ots, s.favoritedTrack = some ts ∧ s.favoritedShow = some ss ∧
      s.favoritedSource = some srcs ∧ s.favoritedArtist = some ars ∧
      s.offlineTrack = some ots ∧
      extract s (initLegacyData v) = { initLegacyData v with
        trackUuids := sortStrings (ts.map (fun o => toLowerCase o.uuid))
        showUuids := sortStrings (ss.map (fun o => toLowerCase o.uuid))
        sources := normalizedSources srcs
        artistUuids := sortStrings (ars.map (fun o => toLowerCase o.uuid))
        offlineTracksBySource :=
          aggregateBy (downloadedTracks ots) (fun t => t.source_uuid) }) := by
  cases hta : s.favoritedTrack with
  | none => exact Or.inl ⟨rfl, extract_fail_track s _ hta⟩
  | some ts =>
  cases hsh : s.favoritedShow with
  | none =>
    exact Or.inr (Or.inl ⟨ts, rfl, rfl, extract_fail_show s _ ts hta hsh⟩)
  | some ss =>
  cases hso : s.favoritedSource with
  | none =>
    exact Or.inr (Or.inr (Or.inl
      ⟨ts, ss, rfl, rfl, rfl, extract_fail_source s _ ts ss hta hsh hso⟩))
  | some srcs =>
  cases har : s.favoritedArtist with
  | none =>
    exact Or.inr (Or.inr (Or.inr (Or.inl
      ⟨ts, ss, srcs, rfl, rfl, rfl, rfl,
        extract_fail_artist s _ ts ss srcs hta hsh hso har⟩)))
  | some ars =>
  cases hot : s.offlineTrack with
  | none =>
    exact Or.inr (Or.inr (Or.inr (Or.inr (Or.inl
      ⟨ts, ss, srcs, ars, rfl, rfl, rfl, rfl, rfl,
        extract_fail_offline s _ ts ss srcs ars hta hsh hso har hot⟩))))
  | some ots =>
    exact Or.inr (Or.inr (Or.inr (Or.inr (Or.inr
      ⟨ts, ss, srcs, ars, ots, rfl, rfl, rfl, rfl, rfl,
        extract_all_some s _ ts ss srcs ars ots hta hsh hso har hot⟩))))

/-! Characterization of the route. -/

/-- The route's behaviour after a successful open with a readable schema
version: extraction runs, the handle is closed once, the temp file removed,
and the 200 response carries the extracted data. -/
theorem migrate_success_of (env : OpenEnv) (s : Store)
    (hopen : openStore env = some s) (hsv : s.schemaVersionReadOk = true) :
    migrate (some env) =
      { response := Response.success (extract s (initLegacyData s.schemaVersion))
          (isEmptyCalc (extract s (initLegacyData s.schemaVersion)))
        closeCalls := 1
        tempRemoved := true } := by
  simp [migrate, hopen, hsv]

/-- A success response can only arise from a successful open with a readable
schema version, and carries exactly the extracted data. -/
theorem migrate_success_inv (env : OpenEnv) (d : LegacyData) (e : Bool)
    (h : (migrate (some env)).response = Response.success d e) :
    ∃ s, openStore env = some s ∧ s.schemaVersionReadOk = true ∧
      d = extract s (initLegacyData s.schemaVersion) ∧ e = isEmptyCalc d := by
  cases hopen : openStore env with
  | none => simp [migrate, hopen] at h
  | some s =>
    by_cases hsv : s.schemaVersionReadOk = true
    · refine ⟨s, rfl, hsv, ?_⟩
      simp [migrate, hopen, hsv] at h
      exact ⟨h.1.symm, by rw [h.2.symm, h.1]⟩
    · simp [migrate, hopen, hsv] at h

/-- The `trackUuids` output is either empty or the sorted lowercased uuids
of a successfully read `FavoritedTrack` table. -/
theorem extract_trackUuids_or (s : Store) (v : Int) :
    (extract s (initLegacyData v)).trackUuids = [] ∨
    ∃ ts, s.favoritedTrack = some ts ∧
      (extract s (initLegacyData v)).trackUuids =
        sortStrings (ts.map (fun o => toLowerCase o.uuid)) := by
  rcases extract_cases s v with ⟨_, h⟩ | ⟨ts, hta, _, h⟩ | ⟨ts, _, hta, _, _, h⟩ |
    ⟨ts, _, _, hta, _, _, _, h⟩ | ⟨ts, _, _, _, hta, _, _, _, _, h⟩ |
    ⟨ts, _, _, _, _, hta, _, _, _, _, h⟩ <;> rw [h]
  · exact Or.inl rfl
  all_goals exact Or.inr ⟨ts, hta, rfl⟩

/-- The `showUuids` output is either empty or the sorted lowercased uuids
of a successfully read `FavoritedShow` table. -/
theorem extract_showUuids_or (s : Store) (v : Int) :
    (extract s (initLegacyData v)).showUuids = [] ∨
    ∃ ss, s.favoritedShow = some ss ∧
      (extract s (initLegacyData v)).showUuids =
        sortStrings (ss.map (fun o => toLowerCase o.uuid)) := by
  rcases extract_cases s v with ⟨_, h⟩ | ⟨_, _, _, h⟩ | ⟨_, ss, _, hsh, _, h⟩ |
    ⟨_, ss, _, _, hsh, _, _, h⟩ | ⟨_, ss, _, _, _, hsh, _, _, _, h⟩ |
    ⟨_, ss, _, _, _, _, hsh, _, _, _, h⟩ <;> rw [h]
  · exact Or.inl rfl
  · exact Or.inl rfl
  all_goals exact Or.inr ⟨ss, hsh, rfl⟩

/-- The `artistUuids` output is either empty or the sorted lowercased uuids
of a successfully read `FavoritedArtist` table. -/
theorem extract_artistUuids_or (s : Store) (v : Int) :
    (extract s (initLegacyData v)).artistUuids = [] ∨
    ∃ ars, s.favoritedArtist = some ars ∧
      (extract s (initLegacyData v)).artistUuids =
        sortStrings (ars.map (fun o => toLowerCase o.uuid)) := by
  rcases extract_cases s v with ⟨_, h⟩ | ⟨_, _, _, h⟩ | ⟨_, _, _, _, _, h⟩ |
    ⟨_, _, _, _, _, _, _, h⟩ | ⟨_, _, _, ars, _, _, _, har, _, h⟩ |
    ⟨_, _, _, ars, _, _, _, _, har, _, h⟩ <;> rw [h]
  · exact Or.inl rfl
  · exact Or.inl rfl
  · exact Or.inl rfl
  · exact Or.inl rfl
  all_goals exact Or.inr ⟨ars, har, rfl⟩

/-- The `sources` output is either empty or the normalized records of a
successfully read `FavoritedSource` table. -/
theorem extract_sources_or (s : Store) (v : Int) :
    (extract s (initLegacyData v)).sources = [] ∨
    ∃ srcs, s.favoritedSource = some srcs ∧
      (extract s (initLegacyData v)).sources = normalizedSources srcs := by
  rcases extract_cases s v with ⟨_, h⟩ | ⟨_, _, _, h⟩ | ⟨_, _, _, _, _, h⟩ |
    ⟨_, _, srcs, _, _, hso, _, h⟩ | ⟨_, _, srcs, _, _, _, hso, _, _, h⟩ |
    ⟨_, _, srcs, _, _, _, _, hso, _, _, h⟩ <;> rw [h]
  · exact Or.inl rfl
  · exact Or.inl rfl
  · exact Or.inl rfl
  all_goals exact Or.inr ⟨srcs, hso, rfl⟩

/-- The aggregate output is either empty or `aggregateBy` of the downloaded
tracks of a successfully read `OfflineTrack` table. -/
theorem extract_offline_or (s : Store) (v : Int) :
    (extract s (initLegacyData v)).offlineTracksBySource = [] ∨
    ∃ ots, s.offlineTrack = some ots ∧
      (extract s (initLegacyData v)).offlineTracksBySource =
        aggregateBy (downloadedTracks ots) (fun t => t.source_uuid) := by
  rcases extract_cases s v with ⟨_, h⟩ | ⟨_, _, _, h⟩ | ⟨_, _, _, _, _, h⟩ |
    ⟨_, _, _, _, _, _, _, h⟩ | ⟨_, _, _, _, _, _, _, _, _, h⟩ |
    ⟨_, _, _, _, ots, _, _, _, _, hot, h⟩ <;> rw [h]
  · exact Or.inl rfl
  · exact Or.inl rfl
  · exact Or.inl rfl
  · exact Or.inl rfl
  · exact Or.inl rfl
  · exact Or.inr ⟨ots, hot, rfl⟩

/-! Concrete fixtures, mirroring the worked example of the spec and the
generate-test-db.js test database. -/

/-- The `FavoritedTrack` rows of the example store. -/
def exampleTracks : List FavoritedTrackRec :=
  [{ uuid := "track-101", created_at := 5, artist_uuid := "artist-123",
     show_uuid := "show-456", source_uuid := "source-789" }]

/-- The `FavoritedShow` rows of the example store. -/
def exampleShows : List FavoritedShowRec :=
  [{ uuid := "show-456", created_at := 2, show_date := 3,
     artist_uuid := "artist-123" }]

/-- The `FavoritedSource` rows of the example store. -/
def exampleSources : List FavoritedSourceRec :=
  [{ uuid := "source-789", created_at := 4, artist_uuid := "artist-123",
     show_uuid := "show-456", show_date := 3 }]

/-- The `FavoritedArtist` rows of the example store. -/
def exampleArtists : List FavoritedArtistRec :=
  [{ uuid := "artist-123", created_at := 1 }]

/-- The `OfflineTrack` rows of the example store: one downloaded track. -/
def exampleOffline : List OfflineTrackRec :=
  [{ track_uuid := "offline-track-202", artist_uuid := "artist-123",
     show_uuid := "show-456", source_uuid := "source-789", created_at := 6,
     state := 3, file_size := some 5242880 }]

/-- The example store of the spec's worked example. -/
def exampleStore : Store :=
  { favoritedArtist := some exampleArtists
    favoritedShow := some exampleShows
    favoritedSource := some exampleSources
    favoritedTrack := some exampleTracks
    recentlyPlayedTrack := []
    offlineTrack := some exampleOffline
    offlineSource := []
    schemaVersion := 9
    schemaVersionReadOk := true }

/-- An environment in which the full-schema open succeeds on the example
store. -/
def exampleEnv : OpenEnv :=
  { full := some exampleStore, fallback := none }

/-- The data the route extracts from the example store. -/
def exampleData : LegacyData :=
  extract exampleStore (initLegacyData 9)

/-- A store that opens but whose schema-version read throws: the one
unexpected-error point between a successful open and the close call. -/
def svFailStore : Store :=
  { favoritedArtist := some exampleArtists
    favoritedShow := some exampleShows
    favoritedSource := some exampleSources
    favoritedTrack := some exampleTracks
    recentlyPlayedTrack := []
    offlineTrack := some exampleOffline
    offlineSource := []
    schemaVersion := 9
    schemaVersionReadOk := false }

/-- A valid store (all raw primary keys distinct) holding two favorited
tracks whose uuids coincide after lowercasing. -/
def caseCollideStore : Store :=
  { favoritedArtist := some []
    favoritedShow := some []
    favoritedSource := some []
    favoritedTrack := some
      [{ uuid := "ABC", created_at := 0, artist_uuid := "a", show_uuid := "s",
         source_uuid := "r" },
       { uuid := "abc", created_at := 0, artist_uuid := "a", show_uuid := "s",
         source_uuid := "r" }]
    recentlyPlayedTrack := []
    offlineTrack := some []
    offlineSource := []
    schemaVersion := 9
    schemaVersionReadOk := true }

/-- A store in which the `FavoritedTrack` read throws while the
`FavoritedShow` table is readable and non-empty (as under a schemaless open
of a file lacking the FavoritedTrack table). -/
def showOnlyStore : Store :=
  { favoritedArtist := some exampleArtists
    favoritedShow := some exampleShows
    favoritedSource := some exampleSources
    favoritedTrack := none
    recentlyPlayedTrack := []
    offlineTrack := some exampleOffline
    offlineSource := []
    schemaVersion := 7
    schemaVersionReadOk := true }

/-! Claim theorems. -/

/-- C9: for every finite list of items and every key selector, `aggregateBy`
partitions its input — keys are duplicate-free, each entry is exactly the
ordered sublist of the input carrying that key (so every item lands exactly
once, in its own key's list, in input order), no entry is empty, every input
item's key occurs, and the value lists jointly enumerate the whole input up
to the grouping permutation. -/
theorem aggregateBy_partitions {α : Type} (items : List α) (key : α → String) :
    ((aggregateBy items key).map Prod.fst).Nodup ∧
    (∀ p ∈ aggregateBy items key,
        p.2 = items.filter (fun i => key i == p.1) ∧ p.2 ≠ []) ∧
    (∀ i ∈ items, key i ∈ (aggregateBy items key).map Prod.fst) ∧
    List.Perm ((aggregateBy items key).map Prod.snd).flatten items :=
  aggregateBy_spec items key

/-- Closed witness for C9 at a concrete input. -/
theorem aggregateBy_partitions_wit :
    aggregateBy [(1 : Int), 2, 3, 4] (fun n => if n % 2 == 0 then "even" else "odd") =
      [("odd", [1, 3]), ("even", [2, 4])] ∧
    (((aggregateBy [(1 : Int), 2, 3, 4]
          (fun n => if n % 2 == 0 then "even" else "odd")).map Prod.fst).Nodup ∧
      (∀ p ∈ aggregateBy [(1 : Int), 2, 3, 4]
          (fun n => if n % 2 == 0 then "even" else "odd"),
        p.2 = [(1 : Int), 2, 3, 4].filter
            (fun i => (if i % 2 == 0 then "even" else "odd") == p.1) ∧ p.2 ≠ []) ∧
      (∀ i ∈ [(1 : Int), 2, 3, 4],
        (if i % 2 == 0 then "even" else "odd") ∈
          (aggregateBy [(1 : Int), 2, 3, 4]
            (fun n => if n % 2 == 0 then "even" else "odd")).map Prod.fst) ∧
      List.Perm ((aggregateBy [(1 : Int), 2, 3, 4]
          (fun n => if n % 2 == 0 then "even" else "odd")).map Prod.snd).flatten
        [(1 : Int), 2, 3, 4]) :=
  ⟨by decide, aggregateBy_partitions [(1 : Int), 2, 3, 4]
    (fun n => if n % 2 == 0 then "even" else "odd")⟩

/-- C5: in every success response, `isEmpty` is `true` exactly when all five
collections of the snapshot are empty. -/
theorem isEmpty_iff_all_empty (env : OpenEnv) (d : LegacyData) (e : Bool)
    (h : (migrate (some env)).response = Response.success d e) :
    e = true ↔ (d.trackUuids = [] ∧ d.showUuids = [] ∧ d.artistUuids = [] ∧
      d.sources = [] ∧ d.offlineTracksBySource = []) := by
  obtain ⟨s, _, _, _, he⟩ := migrate_success_inv env d e h
  subst he
  simp only [isEmptyCalc, Bool.not_eq_true', Bool.or_eq_false_iff,
    decide_eq_false_iff_not, not_lt, Nat.le_zero, List.length_eq_zero]
  tauto

/-- Closed witness for C5 at the example store. -/
theorem isEmpty_iff_all_empty_wit :
    false = true ↔ (exampleData.trackUuids = [] ∧ exampleData.showUuids = [] ∧
      exampleData.artistUuids = [] ∧ exampleData.sources = [] ∧
      exampleData.offlineTracksBySource = []) :=
  isEmpty_iff_all_empty exampleEnv exampleData false (by decide)

/-- C2 (evaluating the code at the failing input): when the store opens
successfully but the schema-version read throws — the one step between the
successful open and the `realm.close()` call that the inner extraction
`try` does not guard — the route answers 500 and `realm.close()` never
runs; only the temp-file `finally` executes.  On the ordinary success path
the handle is closed exactly once. -/
theorem close_skipped_on_unexpected :
    openStore { full := some svFailStore, fallback := none } = some svFailStore ∧
    migrate (some { full := some svFailStore, fallback := none }) =
      { response := Response.failure, closeCalls := 0, tempRemoved := true } ∧
    Response.failure.status = 500 ∧
    (migrate (some exampleEnv)).closeCalls = 1 := by decide

/-- C3 (counterexample): `caseCollideStore` is a valid store — its raw
primary keys are pairwise distinct — yet the emitted `trackUuids` list
contains the duplicate entry `"abc"` twice, because the two case-variant
keys coincide after lowercasing and the route never deduplicates. -/
theorem favorites_nodup_cex :
    ((caseCollideStore.favoritedTrack.getD []).map (fun o => o.uuid)).Nodup ∧
    (migrate (some { full := some caseCollideStore, fallback := none })).response.data =
      some { trackUuids := ["abc", "abc"], showUuids := [], sources := [],
             artistUuids := [], offlineTracksBySource := [], schemaVersion := 9 } ∧
    ¬ (["abc", "abc"] : List String).Nodup := by decide

/-- C3 (amended): `trackUuids`, `showUuids` and `artistUuids` are always
sorted ascending in the JavaScript string order; they are duplicate-free
provided the lowercased primary keys of the corresponding table are pairwise
distinct (raw-key uniqueness alone does not suffice: case-variant keys that
collide after lowercasing are emitted twice). -/
theorem favorites_sorted_nodup (env : OpenEnv) (s : Store) (d : LegacyData) (e : Bool)
    (hopen : openStore env = some s)
    (h : (migrate (some env)).response = Response.success d e) :
    (d.trackUuids.Sorted (fun a b => jsLe a b = true) ∧
     d.showUuids.Sorted (fun a b => jsLe a b = true) ∧
     d.artistUuids.Sorted (fun a b => jsLe a b = true)) ∧
    ((∀ ts, s.favoritedTrack = some ts →
        (ts.map (fun o => toLowerCase o.uuid)).Nodup → d.trackUuids.Nodup) ∧
     (∀ ss, s.favoritedShow = some ss →
        (ss.map (fun o => toLowerCase o.uuid)).Nodup → d.showUuids.Nodup) ∧
     (∀ ars, s.favoritedArtist = some ars →
        (ars.map (fun o => toLowerCase o.uuid)).Nodup → d.artistUuids.Nodup)) := by
  obtain ⟨s', hopen', hsv, hd, _⟩ := migrate_success_inv env d e h
  rw [hopen] at hopen'
  injection hopen' with hss
  subst hss
  subst hd
  constructor
  · refine ⟨?_, ?_, ?_⟩
    · rcases extract_trackUuids_or s s.schemaVersion with h1 | ⟨ts, _, h1⟩ <;> rw [h1]
      · exact List.sorted_nil
      · exact sortStrings_sorted _
    · rcases extract_showUuids_or s s.schemaVersion with h1 | ⟨ss, _, h1⟩ <;> rw [h1]
      · exact List.sorted_nil
      · exact sortStrings_sorted _
    · rcases extract_artistUuids_or s s.schemaVersion with h1 | ⟨ars, _, h1⟩ <;> rw [h1]
      · exact List.sorted_nil
      · exact sortStrings_sorted _
  · refine ⟨?_, ?_, ?_⟩
    · intro ts hta hnd
      rcases extract_trackUuids_or s s.schemaVersion with h1 | ⟨ts', hta', h1⟩ <;> rw [h1]
      · exact List.nodup_nil
      · rw [hta] at hta'
        obtain rfl : ts' = ts := (Option.some.inj hta').symm
        exact sortStrings_nodup hnd
    · intro ss hsh hnd
      rcases extract_showUuids_or s s.schemaVersion with h1 | ⟨ss', hsh', h1⟩ <;> rw [h1]
      · exact List.nodup_nil
      · rw [hsh] at hsh'
        obtain rfl : ss' = ss := (Option.some.inj hsh').symm
        exact sortStrings_nodup hnd
    · intro ars har hnd
      rcases extract_artistUuids_or s s.schemaVersion with h1 | ⟨ars', har', h1⟩ <;> rw [h1]
      · exact List.nodup_nil
      · rw [har] at har'
        obtain rfl : ars' = ars := (Option.some.inj har').symm
        exact sortStrings_nodup hnd

/-- Closed witness for C3 (amended) at the example store. -/
theorem favorites_sorted_nodup_wit :
    exampleData.trackUuids.Sorted (fun a b => jsLe a b = true) ∧
    exampleData.trackUuids.Nodup :=
  ⟨(favorites_sorted_nodup exampleEnv exampleStore exampleData
      (isEmptyCalc exampleData) (by decide) (by decide)).1.1,
   (favorites_sorted_nodup exampleEnv exampleStore exampleData
      (isEmptyCalc exampleData) (by decide) (by decide)).2.1 exampleTracks rfl
      (by decide)⟩

/-- C6: the open strategy tries the full declared schema first, falls back
to a schemaless open, and the route aborts with the `Unreadable` 400
response exactly when both attempts fail; after any successful open (with a
readable schema version) the extraction pipeline always produces the 200
success response, irrespective of which table reads fail. -/
theorem open_strategy (env : OpenEnv) :
    ((migrate (some env)).response = Response.unreadable ↔
      env.full = none ∧ env.fallback = none) ∧
    Response.unreadable.status = 400 ∧
    Response.unreadable.errorMessage =
      some "Unable to read database or unsupported version" ∧
    (∀ s, env.full = some s → openStore env = some s) ∧
    (∀ s, env.full = none → env.fallback = some s → openStore env = some s) ∧
    (∀ s, openStore env = some s → s.schemaVersionReadOk = true →
      (migrate (some env)).response =
        Response.success (extract s (initLegacyData s.schemaVersion))
          (isEmptyCalc (extract s (initLegacyData s.schemaVersion)))) := by
  refine ⟨?_, rfl, rfl, ?_, ?_, ?_⟩
  · cases hf : env.full with
    | some s =>
      have hopen : openStore env = some s := by simp [openStore, hf]
      constructor
      · intro hresp
        by_cases hsv : s.schemaVersionReadOk = true <;>
          simp [migrate, hopen, hsv] at hresp
      · rintro ⟨h1, _⟩
        simp [hf] at h1
    | none =>
      cases hb : env.fallback with
      | some s =>
        have hopen : openStore env = some s := by simp [openStore, hf, hb]
        constructor
        · intro hresp
          by_cases hsv : s.schemaVersionReadOk = true <;>
            simp [migrate, hopen, hsv] at hresp
        · rintro ⟨_, h2⟩
          simp [hb] at h2
      | none =>
        have hopen : openStore env = none := by simp [openStore, hf, hb]
        simp [migrate, hopen, hf, hb]
  · intro s hf
    simp [openStore, hf]
  · intro s hf hb
    simp [openStore, hf, hb]
  · intro s hopen hsv
    rw [migrate_success_of env s hopen hsv]

/-- Closed witness for C6: both opens failing yields the Unreadable 400,
and a fallback-only open still yields a 200 success. -/
theorem open_strategy_wit :
    (migrate (some { full := none, fallback := none })).response =
      Response.unreadable ∧
    (migrate (some { full := none, fallback := some exampleStore })).response =
      Response.success (extract exampleStore (initLegacyData 9))
        (isEmptyCalc (extract exampleStore (initLegacyData 9))) :=
  ⟨(open_strategy { full := none, fallback := none }).1.mpr ⟨rfl, rfl⟩,
   (open_strategy { full := none, fallback := some exampleStore }).2.2.2.2.2
      exampleStore rfl rfl⟩

/-- C4: whenever the pipeline reaches the `OfflineTrack` read (all four
favorites reads succeeded) and that read returns `ots`, the aggregate equals
`aggregateBy` of the downloaded (state 3), identifier-lowercased records:
keys are duplicate-free; each entry is exactly the ordered sublist of the
downloaded records with that (lowercased) source uuid and is non-empty; each
retained record has state `DOWNLOADED` and sits under its own source key;
and the entries jointly enumerate every downloaded record. -/
theorem offline_aggregate_correct (env : OpenEnv) (s : Store)
    (ots : List OfflineTrackRec) (d : LegacyData) (e : Bool)
    (hopen : openStore env = some s)
    (h : (migrate (some env)).response = Response.success d e)
    (hta : s.favoritedTrack ≠ none) (hsh : s.favoritedShow ≠ none)
    (hso : s.favoritedSource ≠ none) (har : s.favoritedArtist ≠ none)
    (hot : s.offlineTrack = some ots) :
    d.offlineTracksBySource =
      aggregateBy (downloadedTracks ots) (fun t => t.source_uuid) ∧
    (d.offlineTracksBySource.map Prod.fst).Nodup ∧
    (∀ p ∈ d.offlineTracksBySource,
      p.2 = (downloadedTracks ots).filter (fun r => r.source_uuid == p.1) ∧
      p.2 ≠ [] ∧
      ∀ r ∈ p.2, r.state = OfflineTrackState.DOWNLOADED ∧ r.source_uuid = p.1 ∧
        ∃ o ∈ ots, o.state = OfflineTrackState.DOWNLOADED ∧
          r.source_uuid = toLowerCase o.source_uuid) ∧
    List.Perm (d.offlineTracksBySource.map Prod.snd).flatten
      (downloadedTracks ots) := by
  obtain ⟨s', hopen', hsv, hd, _⟩ := migrate_success_inv env d e h
  rw [hopen] at hopen'
  injection hopen' with hss
  subst hss
  subst hd
  obtain ⟨ts, hta'⟩ := Option.ne_none_iff_exists'.mp hta
  obtain ⟨ss, hsh'⟩ := Option.ne_none_iff_exists'.mp hsh
  obtain ⟨srcs, hso'⟩ := Option.ne_none_iff_exists'.mp hso
  obtain ⟨ars, har'⟩ := Option.ne_none_iff_exists'.mp har
  rw [extract_all_some s (initLegacyData s.schemaVersion) ts ss srcs ars ots
    hta' hsh' hso' har' hot]
  obtain ⟨hnd, hent, _, hperm⟩ :=
    aggregateBy_spec (downloadedTracks ots) (fun t => t.source_uuid)
  refine ⟨rfl, hnd, ?_, hperm⟩
  intro p hp
  obtain ⟨hfil, hne⟩ := hent p hp
  refine ⟨hfil, hne, ?_⟩
  intro r hr
  rw [hfil] at hr
  have hr1 := List.mem_filter.mp hr
  have hkey : r.source_uuid = p.1 := by simpa using hr1.2
  obtain ⟨o, ho, rfl⟩ := List.mem_map.mp hr1.1
  have ho1 := List.mem_filter.mp ho
  have hos : o.state = OfflineTrackState.DOWNLOADED := by simpa using ho1.2
  exact ⟨hos, hkey, o, ho1.1, hos, rfl⟩

/-- Closed witness for C4 at the example store. -/
theorem offline_aggregate_correct_wit :
    exampleData.offlineTracksBySource =
      aggregateBy (downloadedTracks exampleOffline) (fun t => t.source_uuid) :=
  (offline_aggregate_correct exampleEnv exampleStore exampleOffline exampleData
    (isEmptyCalc exampleData) (by decide) (by decide) (by decide) (by decide)
    (by decide) (by decide) rfl).1

/-- C8: a store whose schema lacks the `OfflineTrack` table (read last) but
has all four favorites tables extracts successfully through the schemaless
fallback: the favorites collections are populated from the store, the
aggregate is empty, the response is a 200 success (never `Unreadable`), and
the handle is closed. -/
theorem older_schema_succeeds (env : OpenEnv) (s : Store)
    (ts : List FavoritedTrackRec) (ss : List FavoritedShowRec)
    (srcs : List FavoritedSourceRec) (ars : List FavoritedArtistRec)
    (hfull : env.full = none) (hfb : env.fallback = some s)
    (hta : s.favoritedTrack = some ts) (hsh : s.favoritedShow = some ss)
    (hso : s.favoritedSource = some srcs) (har : s.favoritedArtist = some ars)
    (hot : s.offlineTrack = none) (hsv : s.schemaVersionReadOk = true) :
    (∃ e, (migrate (some env)).response =
      Response.success
        { trackUuids := sortStrings (ts.map (fun o => toLowerCase o.uuid))
          showUuids := sortStrings (ss.map (fun o => toLowerCase o.uuid))
          sources := normalizedSources srcs
          artistUuids := sortStrings (ars.map (fun o => toLowerCase o.uuid))
          offlineTracksBySource := []
          schemaVersion := s.schemaVersion } e) ∧
    (migrate (some env)).response.status = 200 ∧
    (migrate (some env)).response ≠ Response.unreadable ∧
    (migrate (some env)).closeCalls = 1 := by
  have hopen : openStore env = some s := by simp [openStore, hfull, hfb]
  have hm := migrate_success_of env s hopen hsv
  have hext := extract_fail_offline s (initLegacyData s.schemaVersion)
    ts ss srcs ars hta hsh hso har hot
  rw [hm, hext]
  refine ⟨⟨_, rfl⟩, rfl, ?_, rfl⟩
  intro hcontra
  exact Response.noConfusion hcontra

/-- A concrete older-schema store: favorites tables present, `OfflineTrack`
absent. -/
def olderStore : Store :=
  { favoritedArtist := some exampleArtists
    favoritedShow := some exampleShows
    favoritedSource := some exampleSources
    favoritedTrack := some exampleTracks
    recentlyPlayedTrack := []
    offlineTrack := none
    offlineSource := []
    schemaVersion := 7
    schemaVersionReadOk := true }

/-- Closed witness for C8 at a concrete older-schema store. -/
theorem older_schema_succeeds_wit :
    ∃ e, (migrate (some { full := none, fallback := some olderStore })).response =
      Response.success
        { trackUuids := ["track-101"]
          showUuids := ["show-456"]
          sources := [{ uuid := "source-789", created_at := 4,
                        artist_uuid := "artist-123", show_uuid := "show-456",
                        show_date := 3 }]
          artistUuids := ["artist-123"]
          offlineTracksBySource := []
          schemaVersion := 7 } e :=
  (older_schema_succeeds
    { full := none, fallback := some olderStore } olderStore
    exampleTracks exampleShows exampleSources exampleArtists
    rfl rfl rfl rfl rfl rfl rfl rfl).1

/-- An environment opening `showOnlyStore` through the schemaless fallback. -/
def showOnlyEnv : OpenEnv :=
  { full := none, fallback := some showOnlyStore }

/-- C1 (counterexample): in `showOnlyStore` the `FavoritedShow` and
`OfflineTrack` tables are readable and non-empty, but because the
`FavoritedTrack` read throws first and the whole extraction block is one
guarded unit, every collection — including `showUuids` and the aggregate —
comes back empty instead of being populated from the store, while the
response is still a 200 success. -/
theorem extraction_not_independent_cex :
    showOnlyStore.favoritedShow = some exampleShows ∧
    sortStrings (exampleShows.map (fun o => toLowerCase o.uuid)) = ["show-456"] ∧
    showOnlyStore.offlineTrack = some exampleOffline ∧
    showOnlyStore.favoritedTrack = none ∧
    (migrate (some showOnlyEnv)).response =
      Response.success (initLegacyData 7) true ∧
    (initLegacyData 7).showUuids = [] ∧
    (initLegacyData 7).offlineTracksBySource = [] := by decide

/-- C1 (amended): the five entity kinds are extracted sequentially inside a
single guarded block, in the order FavoritedTrack, FavoritedShow,
FavoritedSource, FavoritedArtist, OfflineTrack.  The first failed read
aborts the remainder of the block: the failing kind and every later kind
stay empty while the kinds already read keep their extracted collections;
no error is surfaced — the response is still a 200 success. -/
theorem extraction_sequential (env : OpenEnv) (s : Store)
    (hopen : openStore env = some s) (hsv : s.schemaVersionReadOk = true) :
    ∃ d e, (migrate (some env)).response = Response.success d e ∧
      (migrate (some env)).response.status = 200 ∧
      ((s.favoritedTrack = none ∧ d = initLegacyData s.schemaVersion) ∨
       (∃ ts, s.favoritedTrack = some ts ∧ s.favoritedShow = none ∧
         d = { initLegacyData s.schemaVersion with
           trackUuids := sortStrings (ts.map (fun o => toLowerCase o.uuid)) }) ∨
       (∃ ts ss, s.favoritedTrack = some ts ∧ s.favoritedShow = some ss ∧
         s.favoritedSource = none ∧
         d = { initLegacyData s.schemaVersion with
           trackUuids := sortStrings (ts.map (fun o => toLowerCase o.uuid))
           showUuids := sortStrings (ss.map (fun o => toLowerCase o.uuid)) }) ∨
       (∃ ts ss srcs, s.favoritedTrack = some ts ∧ s.favoritedShow = some ss ∧
         s.favoritedSource = some srcs ∧ s.favoritedArtist = none ∧
         d = { initLegacyData s.schemaVersion with
           trackUuids := sortStrings (ts.map (fun o => toLowerCase o.uuid))
           showUuids := sortStrings (ss.map (fun o => toLowerCase o.uuid))
           sources := normalizedSources srcs }) ∨
       (∃ ts ss srcs ars, s.favoritedTrack = some ts ∧ s.favoritedShow = some ss ∧
         s.favoritedSource = some srcs ∧ s.favoritedArtist = some ars ∧
         s.offlineTrack = none ∧
         d = { initLegacyData s.schemaVersion with
           trackUuids := sortStrings (ts.map (fun o => toLowerCase o.uuid))
           showUuids := sortStrings (ss.map (fun o => toLowerCase o.uuid))
           sources := normalizedSources srcs
           artistUuids := sortStrings (ars.map (fun o => toLowerCase o.uuid)) }) ∨
       (∃ ts ss srcs ars ots, s.favoritedTrack = some ts ∧
         s.favoritedShow = some ss ∧ s.favoritedSource = some srcs ∧
         s.favoritedArtist = some ars ∧ s.offlineTrack = some ots ∧
         d = { initLegacyData s.schemaVersion with
           trackUuids := sortStrings (ts.map (fun o => toLowerCase o.uuid))
           showUuids := sortStrings (ss.map (fun o => toLowerCase o.uuid))
           sources := normalizedSources srcs
           artistUuids := sortStrings (ars.map (fun o => toLowerCase o.uuid))
           offlineTracksBySource :=
             aggregateBy (downloadedTracks ots) (fun t => t.source_uuid) })) := by
  rw [migrate_success_of env s hopen hsv]
  exact ⟨extract s (initLegacyData s.schemaVersion),
    isEmptyCalc (extract s (initLegacyData s.schemaVersion)), rfl, rfl,
    extract_cases s s.schemaVersion⟩

/-- Closed witness for C1 (amended) at a concrete store. -/
theorem extraction_sequential_wit :
    ∃ d e, (migrate (some showOnlyEnv)).response = Response.success d e := by
  obtain ⟨d, e, h1, _⟩ := extraction_sequential showOnlyEnv showOnlyStore rfl rfl
  exact ⟨d, e, h1⟩

/-- C7: every identifier in every output field is a fixed point of the case
fold, and the case fold is idempotent. -/
theorem output_identifiers_lowercase :
    (∀ x : String, toLowerCase (toLowerCase x) = toLowerCase x) ∧
    ∀ env d e, (migrate (some env)).response = Response.success d e →
      (∀ u ∈ d.trackUuids, toLowerCase u = u) ∧
      (∀ u ∈ d.showUuids, toLowerCase u = u) ∧
      (∀ u ∈ d.artistUuids, toLowerCase u = u) ∧
      (∀ src ∈ d.sources, toLowerCase src.uuid = src.uuid ∧
        toLowerCase src.artist_uuid = src.artist_uuid ∧
        toLowerCase src.show_uuid = src.show_uuid) ∧
      (∀ p ∈ d.offlineTracksBySource, toLowerCase p.1 = p.1 ∧
        ∀ r ∈ p.2, toLowerCase r.track_uuid = r.track_uuid ∧
          toLowerCase r.artist_uuid = r.artist_uuid ∧
          toLowerCase r.show_uuid = r.show_uuid ∧
          toLowerCase r.source_uuid = r.source_uuid) := by
  refine ⟨toLowerCase_idem, ?_⟩
  intro env d e h
  obtain ⟨s, _, _, hd, _⟩ := migrate_success_inv env d e h
  subst hd
  refine ⟨?_, ?_, ?_, ?_, ?_⟩
  · rcases extract_trackUuids_or s s.schemaVersion with h1 | ⟨ts, _, h1⟩ <;> rw [h1]
    · intro u hu
      exact absurd hu (List.not_mem_nil u)
    · intro u hu
      rw [mem_sortStrings] at hu
      obtain ⟨o, _, rfl⟩ := List.mem_map.mp hu
      exact toLowerCase_idem o.uuid
  · rcases extract_showUuids_or s s.schemaVersion with h1 | ⟨ss, _, h1⟩ <;> rw [h1]
    · intro u hu
      exact absurd hu (List.not_mem_nil u)
    · intro u hu
      rw [mem_sortStrings] at hu
      obtain ⟨o, _, rfl⟩ := List.mem_map.mp hu
      exact toLowerCase_idem o.uuid
  · rcases extract_artistUuids_or s s.schemaVersion with h1 | ⟨ars, _, h1⟩ <;> rw [h1]
    · intro u hu
      exact absurd hu (List.not_mem_nil u)
    · intro u hu
      rw [mem_sortStrings] at hu
      obtain ⟨o, _, rfl⟩ := List.mem_map.mp hu
      exact toLowerCase_idem o.uuid
  · rcases extract_sources_or s s.schemaVersion with h1 | ⟨srcs, _, h1⟩ <;> rw [h1]
    · intro src hsrc
      exact absurd hsrc (List.not_mem_nil src)
    · intro src hsrc
      obtain ⟨o, _, rfl⟩ := List.mem_map.mp hsrc
      exact ⟨toLowerCase_idem o.uuid, toLowerCase_idem o.artist_uuid,
        toLowerCase_idem o.show_uuid⟩
  · rcases extract_offline_or s s.schemaVersion with h1 | ⟨ots, _, h1⟩ <;> rw [h1]
    · intro p hp
      exact absurd hp (List.not_mem_nil p)
    · intro p hp
      obtain ⟨_, hent, _, _⟩ :=
        aggregateBy_spec (downloadedTracks ots) (fun t => t.source_uuid)
      obtain ⟨hfil, hne⟩ := hent p hp
      have hr_all : ∀ r ∈ p.2, toLowerCase r.track_uuid = r.track_uuid ∧
          toLowerCase r.artist_uuid = r.artist_uuid ∧
          toLowerCase r.show_uuid = r.show_uuid ∧
          toLowerCase r.source_uuid = r.source_uuid := by
        intro r hr
        rw [hfil] at hr
        have hr1 := List.mem_filter.mp hr
        obtain ⟨o, _, rfl⟩ := List.mem_map.mp hr1.1
        exact ⟨toLowerCase_idem o.track_uuid, toLowerCase_idem o.artist_uuid,
          toLowerCase_idem o.show_uuid, toLowerCase_idem o.source_uuid⟩
      refine ⟨?_, hr_all⟩
      obtain ⟨r, hr⟩ := List.exists_mem_of_ne_nil p.2 hne
      have hkey : r.source_uuid = p.1 := by
        rw [hfil] at hr
        simpa using (List.mem_filter.mp hr).2
      rw [← hkey]
      exact (hr_all r hr).2.2.2

/-- Closed witness for C7 at the example store. -/
theorem output_identifiers_lowercase_wit :
    toLowerCase (toLowerCase "ABC") = toLowerCase "ABC" ∧
    ∀ u ∈ exampleData.trackUuids, toLowerCase u = u :=
  ⟨output_identifiers_lowercase.1 "ABC",
   (output_identifiers_lowercase.2 exampleEnv exampleData
      (isEmptyCalc exampleData) (by decide)).1⟩

/-- The extraction block reads neither `RecentlyPlayedTrack` nor
`OfflineSource`: its result is unchanged by any variation of those two
tables. -/
theorem extract_congr_unread (s₁ s₂ : Store) (d : LegacyData)
    (hfa : s₁.favoritedArtist = s₂.favoritedArtist)
    (hfs : s₁.favoritedShow = s₂.favoritedShow)
    (hfr : s₁.favoritedSource = s₂.favoritedSource)
    (hft : s₁.favoritedTrack = s₂.favoritedTrack)
    (hot : s₁.offlineTrack = s₂.offlineTrack) :
    extract s₁ d = extract s₂ d := by
  unfold extract
  rw [hft, hfs, hfr, hfa, hot]

/-- C10: two successfully opened stores that agree on the five read tables,
the schema version and the schema-version readability — but differ
arbitrarily in the `RecentlyPlayedTrack` and `OfflineSource` tables, both
declared in the full open schema — produce identical invocation results. -/
theorem snapshot_ignores_unread_tables (env₁ env₂ : OpenEnv) (s₁ s₂ : Store)
    (h₁ : openStore env₁ = some s₁) (h₂ : openStore env₂ = some s₂)
    (hfa : s₁.favoritedArtist = s₂.favoritedArtist)
    (hfs : s₁.favoritedShow = s₂.favoritedShow)
    (hfr : s₁.favoritedSource = s₂.favoritedSource)
    (hft : s₁.favoritedTrack = s₂.favoritedTrack)
    (hot : s₁.offlineTrack = s₂.offlineTrack)
    (hv : s₁.schemaVersion = s₂.schemaVersion)
    (hsv : s₁.schemaVersionReadOk = s₂.schemaVersionReadOk) :
    migrate (some env₁) = migrate (some env₂) ∧
    "RecentlyPlayedTrack" ∈ fullSchemaNames ∧
    "OfflineSource" ∈ fullSchemaNames := by
  refine ⟨?_, by decide, by decide⟩
  simp only [migrate, h₁, h₂]
  rw [hsv, hv,
    extract_congr_unread s₁ s₂ (initLegacyData s₂.schemaVersion) hfa hfs hfr hft hot]

/-- A store identical to the example store on the five read tables but with
extra `RecentlyPlayedTrack` and `OfflineSource` rows. -/
def noisyStore : Store :=
  { favoritedArtist := some exampleArtists
    favoritedShow := some exampleShows
    favoritedSource := some exampleSources
    favoritedTrack := some exampleTracks
    recentlyPlayedTrack :=
      [{ uuid := "rp-1", created_at := 0, artist_uuid := "a", show_uuid := "s",
         source_uuid := "r", track_uuid := "t", updated_at := 0,
         past_halfway := true }]
    offlineTrack := some exampleOffline
    offlineSource :=
      [{ source_uuid := "os-1", artist_uuid := "a", show_uuid := "s",
         year_uuid := "y", created_at := 0 }]
    schemaVersion := 9
    schemaVersionReadOk := true }

/-- Closed witness for C10: the example store and its noisy variant yield
the same result although their unread tables differ. -/
theorem snapshot_ignores_unread_tables_wit :
    migrate (some { full := some exampleStore, fallback := none }) =
      migrate (some { full := some noisyStore, fallback := none }) ∧
    exampleStore.recentlyPlayedTrack ≠ noisyStore.recentlyPlayedTrack ∧
    exampleStore.offlineSource ≠ noisyStore.offlineSource :=
  ⟨(snapshot_ignores_unread_tables
      { full := some exampleStore, fallback := none }
      { full := some noisyStore, fallback := none }
      exampleStore noisyStore rfl rfl rfl rfl rfl rfl rfl rfl rfl).1,
   by decide, by decide⟩

end RealmMigrator
